import Mathlib

/-!
Verification of the midi-types MIDI message library.

Shallow embedding of the crate's Rust sources:

* namespace `MidiTypes` — the value primitives of `message.rs` and `note.rs`
  (saturating constructors; the `debug_assert!` calls are compiled out of
  release builds and so are not part of the delivered behaviour) and the
  byte-at-a-time stream parser of `parser.rs`.  Machine `u8`/`u16` values are
  modelled as `Nat`, `i16` as `Int`.

* namespace `Codec` — the buffer codec of `midi.rs`, which carries its own
  local value types whose `From<u8>` conversions `assert!` on out-of-range
  input (a hard assert, present in release builds).  A Rust panic is modelled
  as `Option.none`; the mutable output buffer of `render` is modelled by
  returning the post-call buffer contents alongside the `Result`.
-/

namespace MidiTypes

/-- Rust `Channel` (message.rs): 4-bit MIDI channel; `Channel::new` clamps the
input into `0..=15`. -/
structure Channel where
  val : Nat
deriving Repr, DecidableEq

/-- Rust `Channel::new` (message.rs line 142): `if channel > 15 { 15 } else { channel }`. -/
def Channel.new (channel : Nat) : Channel :=
  ⟨if channel > 15 then 15 else channel⟩

/-- Rust `From<Channel> for u8` (message.rs line 192). -/
def Channel.toU8 (c : Channel) : Nat := c.val

/-- Rust `Control` (message.rs): controller number; `Control::new` clamps into `0..=127`. -/
structure Control where
  val : Nat
deriving Repr, DecidableEq

/-- Rust `Control::new` (message.rs line 212): `if control > 127 { 127 } else { control }`. -/
def Control.new (control : Nat) : Control :=
  ⟨if control > 127 then 127 else control⟩

/-- Rust `From<Control> for u8` (message.rs line 224). -/
def Control.toU8 (c : Control) : Nat := c.val

/-- Rust `Program` (message.rs): program number; `Program::new` clamps into `0..=127`. -/
structure Program where
  val : Nat
deriving Repr, DecidableEq

/-- Rust `Program::new` (message.rs line 244): `if program > 127 { 127 } else { program }`. -/
def Program.new (program : Nat) : Program :=
  ⟨if program > 127 then 127 else program⟩

/-- Rust `From<Program> for u8` (message.rs line 256). -/
def Program.toU8 (p : Program) : Nat := p.val

/-- Rust `Value7` (message.rs): 7-bit data value; `Value7::new` clamps into `0..=127`. -/
structure Value7 where
  val : Nat
deriving Repr, DecidableEq

/-- Rust `Value7::new` (message.rs line 276): `if value > 127 { 127 } else { value }`. -/
def Value7.new (value : Nat) : Value7 :=
  ⟨if value > 127 then 127 else value⟩

/-- Rust `From<Value7> for u8` (message.rs line 288). -/
def Value7.toU8 (v : Value7) : Nat := v.val

/-- Rust `QuarterFrame` (message.rs): quarter-frame payload; `new` clamps into `0..=127`. -/
structure QuarterFrame where
  val : Nat
deriving Repr, DecidableEq

/-- Rust `QuarterFrame::new` (message.rs line 443): `if frame > 127 { 127 } else { frame }`. -/
def QuarterFrame.new (frame : Nat) : QuarterFrame :=
  ⟨if frame > 127 then 127 else frame⟩

/-- Rust `From<QuarterFrame> for u8` (message.rs line 471). -/
def QuarterFrame.toU8 (q : QuarterFrame) : Nat := q.val

/-- Rust `Note` (note.rs): MIDI note number; `Note::new` clamps into `0..=127`. -/
structure Note where
  val : Nat
deriving Repr, DecidableEq

/-- Rust `Note::new` (note.rs line 166): `if val > 127 { 127 } else { val }`. -/
def Note.new (val : Nat) : Note :=
  ⟨if val > 127 then 127 else val⟩

/-- Rust `From<Note> for u8` (note.rs line 203). -/
def Note.toU8 (n : Note) : Nat := n.val

/-- Rust `Value14` (message.rs): a 14-bit value stored as two 7-bit bytes.
Field 0 (`msb`) carries the high 7 bits of the combined `u16` view,
field 1 (`lsb`) the low 7 bits (message.rs `From<Value14> for u16`). -/
structure Value14 where
  msb : Nat
  lsb : Nat
deriving Repr, DecidableEq

/-- Rust `Value14::new` (message.rs line 309): each component is saturated with
`if x >= 127 { 127 } else { x }`. -/
def Value14.new (msb lsb : Nat) : Value14 :=
  ⟨if msb ≥ 127 then 127 else msb, if lsb ≥ 127 then 127 else lsb⟩

/-- Rust `From<u16> for Value14` (message.rs line 331): clamp to `0..=16383`,
then split the high and low 7 bits (not routed through `Value14::new`). -/
def Value14.ofU16 (value : Nat) : Value14 :=
  let value := if value > 16383 then 16383 else value
  ⟨(value &&& 0x3F80) >>> 7, value &&& 0x007F⟩

/-- Rust `From<Value14> for u16` (message.rs line 339): `(msb << 7) + lsb`. -/
def Value14.toU16 (value : Value14) : Nat :=
  (value.msb <<< 7) + value.lsb

/-- Rust `From<i16> for Value14` (message.rs line 346): clamp to `-8192..=8191`,
bias by `+8192` (the result is non-negative, so `Int.toNat` is exact), then
split through `Value14::new`. -/
def Value14.ofI16 (value : Int) : Value14 :=
  let value := min (max value (-8192)) 8191 + 8192
  Value14.new ((value.toNat &&& 0x3F80) >>> 7) (value.toNat &&& 0x007F)

/-- Rust `From<Value14> for i16` (message.rs line 356): the `u16` view minus `8192`. -/
def Value14.toI16 (value : Value14) : Int :=
  (value.toU16 : Int) - 8192

/-- Rust `MidiMessage` (message.rs): all channel-voice and system messages. -/
inductive MidiMessage where
  | NoteOff (c : Channel) (n : Note) (v : Value7)
  | NoteOn (c : Channel) (n : Note) (v : Value7)
  | KeyPressure (c : Channel) (n : Note) (v : Value7)
  | ControlChange (c : Channel) (ctl : Control) (v : Value7)
  | ProgramChange (c : Channel) (p : Program)
  | ChannelPressure (c : Channel) (v : Value7)
  | PitchBendChange (c : Channel) (v : Value14)
  | QuarterFrame (q : QuarterFrame)
  | SongPositionPointer (v : Value14)
  | SongSelect (v : Value7)
  | TuneRequest
  | TimingClock
  | Start
  | Continue
  | Stop
  | ActiveSensing
  | Reset
deriving Repr, DecidableEq

/-- Rust `MidiMessage::len` (message.rs line 79): rendered length including status. -/
def MidiMessage.len : MidiMessage → Nat
  | .NoteOff .. | .NoteOn .. | .KeyPressure .. | .ControlChange ..
  | .PitchBendChange .. | .SongPositionPointer .. => 3
  | .ProgramChange .. | .ChannelPressure .. | .QuarterFrame .. | .SongSelect .. => 2
  | .TuneRequest | .TimingClock | .Start | .Continue | .Stop
  | .ActiveSensing | .Reset => 1

/-- Rust `MidiParserState` (parser.rs line 11): internal state of the
byte-stream parser (the `MidiByteStreamParser` struct holds exactly one
such state).  `PitchBendFirstByteRecvd` and `SongPositionLsbRecvd` store the
first data byte raw, as `u8`. -/
inductive MidiParserState where
  | Idle
  | NoteOnRecvd (c : Channel)
  | NoteOnNoteRecvd (c : Channel) (n : Note)
  | NoteOffRecvd (c : Channel)
  | NoteOffNoteRecvd (c : Channel) (n : Note)
  | KeyPressureRecvd (c : Channel)
  | KeyPressureNoteRecvd (c : Channel) (n : Note)
  | ControlChangeRecvd (c : Channel)
  | ControlChangeControlRecvd (c : Channel) (ctl : Control)
  | ProgramChangeRecvd (c : Channel)
  | ChannelPressureRecvd (c : Channel)
  | PitchBendRecvd (c : Channel)
  | PitchBendFirstByteRecvd (c : Channel) (b : Nat)
  | QuarterFrameRecvd
  | SongPositionRecvd
  | SongPositionLsbRecvd (lsb : Nat)
  | SongSelectRecvd
deriving Repr, DecidableEq

/-- Rust `is_status_byte` (parser.rs line 41): most significant bit set. -/
def is_status_byte (byte : Nat) : Bool := byte &&& 0x80 == 0x80

/-- Rust `is_system_message` (parser.rs line 46): high nibble `0xF`. -/
def is_system_message (byte : Nat) : Bool := byte &&& 0xF0 == 0xF0

/-- Rust `split_message_and_channel` (parser.rs line 51). -/
def split_message_and_channel (byte : Nat) : Nat × Channel :=
  (byte &&& 0xF0, Channel.new (byte &&& 0x0F))

/-- Rust `MidiByteStreamParser::parse_byte` (parser.rs line 69), as a pure state
transformer: returns the successor state and the optional completed message.
Rust arms that return without assigning `self.state` keep the current state. -/
def parse_byte (state : MidiParserState) (byte : Nat) :
    MidiParserState × Option MidiMessage :=
  if is_status_byte byte then
    if is_system_message byte then
      if byte = 0xF0 then (.Idle, none)
      else if byte = 0xF1 then (.QuarterFrameRecvd, none)
      else if byte = 0xF2 then (.SongPositionRecvd, none)
      else if byte = 0xF3 then (.SongSelectRecvd, none)
      else if byte = 0xF6 then (.Idle, some .TuneRequest)
      else if byte = 0xF7 then (.Idle, none)
      else if byte = 0xF8 then (state, some .TimingClock)
      else if byte = 0xF9 then (state, none)
      else if byte = 0xFA then (state, some .Start)
      else if byte = 0xFB then (state, some .Continue)
      else if byte = 0xFC then (state, some .Stop)
      else if byte = 0xFD then (state, none)
      else if byte = 0xFE then (state, some .ActiveSensing)
      else if byte = 0xFF then (state, some .Reset)
      else (.Idle, none)
    else
      let mc := split_message_and_channel byte
      if mc.1 = 0x80 then (.NoteOffRecvd mc.2, none)
      else if mc.1 = 0x90 then (.NoteOnRecvd mc.2, none)
      else if mc.1 = 0xA0 then (.KeyPressureRecvd mc.2, none)
      else if mc.1 = 0xB0 then (.ControlChangeRecvd mc.2, none)
      else if mc.1 = 0xC0 then (.ProgramChangeRecvd mc.2, none)
      else if mc.1 = 0xD0 then (.ChannelPressureRecvd mc.2, none)
      else if mc.1 = 0xE0 then (.PitchBendRecvd mc.2, none)
      else (state, none)
  else
    match state with
    | .NoteOffRecvd channel =>
        (.NoteOffNoteRecvd channel (Note.new byte), none)
    | .NoteOffNoteRecvd channel note =>
        (.NoteOffRecvd channel, some (.NoteOff channel note (Value7.new byte)))
    | .NoteOnRecvd channel =>
        (.NoteOnNoteRecvd channel (Note.new byte), none)
    | .NoteOnNoteRecvd channel note =>
        (.NoteOnRecvd channel, some (.NoteOn channel note (Value7.new byte)))
    | .KeyPressureRecvd channel =>
        (.KeyPressureNoteRecvd channel (Note.new byte), none)
    | .KeyPressureNoteRecvd channel note =>
        (.KeyPressureRecvd channel, some (.KeyPressure channel note (Value7.new byte)))
    | .ControlChangeRecvd channel =>
        (.ControlChangeControlRecvd channel (Control.new byte), none)
    | .ControlChangeControlRecvd channel control =>
        (.ControlChangeRecvd channel, some (.ControlChange channel control (Value7.new byte)))
    | .ProgramChangeRecvd channel =>
        (state, some (.ProgramChange channel (Program.new byte)))
    | .ChannelPressureRecvd channel =>
        (state, some (.ChannelPressure channel (Value7.new byte)))
    | .PitchBendRecvd channel =>
        (.PitchBendFirstByteRecvd channel byte, none)
    | .PitchBendFirstByteRecvd channel byte1 =>
        (.PitchBendRecvd channel, some (.PitchBendChange channel (Value14.new byte1 byte)))
    | .QuarterFrameRecvd =>
        (state, some (.QuarterFrame (QuarterFrame.new byte)))
    | .SongPositionRecvd =>
        (.SongPositionLsbRecvd byte, none)
    | .SongPositionLsbRecvd lsb =>
        (.SongPositionRecvd, some (.SongPositionPointer (Value14.new lsb byte)))
    | .SongSelectRecvd =>
        (state, some (.SongSelect (Value7.new byte)))
    | .Idle => (state, none)

/-- Feed a byte sequence one byte at a time through `parse_byte`, collecting
the completed messages in order (the crate's test helper `assert_result`
drives the parser exactly like this). -/
def parse_bytes (state : MidiParserState) : List Nat → MidiParserState × List MidiMessage
  | [] => (state, [])
  | b :: bs =>
    let step := parse_byte state b
    let rest := parse_bytes step.1 bs
    (rest.1, match step.2 with
             | some m => m :: rest.2
             | none => rest.2)

end MidiTypes

namespace Codec

/-- Rust `Channel` (midi.rs line 343); `From<u8>` (line 345) has
`assert!(channel <= 15)` — `none` models the panic on out-of-range input. -/
structure Channel where
  val : Nat
deriving Repr, DecidableEq

/-- Rust `From<u8> for Channel` (midi.rs line 345). -/
def Channel.fromU8 (channel : Nat) : Option Channel :=
  if channel ≤ 15 then some ⟨channel⟩ else none

/-- Rust `Note` (midi.rs line 325); `From<u8>` (line 327) has `assert!(note <= 127)`. -/
structure Note where
  val : Nat
deriving Repr, DecidableEq

/-- Rust `From<u8> for Note` (midi.rs line 327). -/
def Note.fromU8 (note : Nat) : Option Note :=
  if note ≤ 127 then some ⟨note⟩ else none

/-- Rust `Control` (midi.rs line 360); `From<u8>` (line 362) has `assert!(control <= 127)`. -/
structure Control where
  val : Nat
deriving Repr, DecidableEq

/-- Rust `From<u8> for Control` (midi.rs line 362). -/
def Control.fromU8 (control : Nat) : Option Control :=
  if control ≤ 127 then some ⟨control⟩ else none

/-- Rust `Program` (midi.rs line 377); `From<u8>` (line 379) has `assert!(value <= 127)`. -/
structure Program where
  val : Nat
deriving Repr, DecidableEq

/-- Rust `From<u8> for Program` (midi.rs line 379). -/
def Program.fromU8 (value : Nat) : Option Program :=
  if value ≤ 127 then some ⟨value⟩ else none

/-- Rust `Value7` (midi.rs line 394); its `From<u8>` (line 396) is unchecked. -/
structure Value7 where
  val : Nat
deriving Repr, DecidableEq

/-- Rust `From<u8> for Value7` (midi.rs line 396): total, stores the raw byte. -/
def Value7.fromU8 (value : Nat) : Value7 := ⟨value⟩

/-- Rust `Value14` (midi.rs line 411): positional tuple struct `Value14(u8, u8)`.
`Into<u16>` (line 431) is `self.0 * 128 + self.1`, so field `v0` carries the
high (most significant) 7 bits and `v1` the low 7 bits. -/
structure Value14 where
  v0 : Nat
  v1 : Nat
deriving Repr, DecidableEq

/-- Rust `From<(u8, u8)> for Value14` (midi.rs line 413): total, stores raw bytes. -/
def Value14.fromPair (a b : Nat) : Value14 := ⟨a, b⟩

/-- Rust `Into<u16> for Value14` (midi.rs line 431). -/
def Value14.toU16 (v : Value14) : Nat := v.v0 * 128 + v.v1

/-- Rust `QuarterFrame` (midi.rs line 484); its `From<u8>` (line 500) is unchecked. -/
structure QuarterFrame where
  val : Nat
deriving Repr, DecidableEq

/-- Rust `From<u8> for QuarterFrame` (midi.rs line 500): total. -/
def QuarterFrame.fromU8 (value : Nat) : QuarterFrame := ⟨value⟩

/-- Rust `MidiMessage` (midi.rs line 42), over the codec's local value types. -/
inductive MidiMessage where
  | NoteOff (c : Channel) (n : Note) (v : Value7)
  | NoteOn (c : Channel) (n : Note) (v : Value7)
  | KeyPressure (c : Channel) (n : Note) (v : Value7)
  | ControlChange (c : Channel) (ctl : Control) (v : Value7)
  | ProgramChange (c : Channel) (p : Program)
  | ChannelPressure (c : Channel) (v : Value7)
  | PitchBendChange (c : Channel) (v : Value14)
  | QuarterFrame (q : QuarterFrame)
  | SongPositionPointer (v : Value14)
  | SongSelect (v : Value7)
  | TuneRequest
  | TimingClock
  | Start
  | Continue
  | Stop
  | ActiveSensing
  | Reset
deriving Repr, DecidableEq

/-- Rust `MidiMessage::len` (midi.rs line 130). -/
def MidiMessage.len : MidiMessage → Nat
  | .NoteOff .. | .NoteOn .. | .KeyPressure .. | .ControlChange ..
  | .PitchBendChange .. | .SongPositionPointer .. => 3
  | .ProgramChange .. | .ChannelPressure .. | .QuarterFrame .. | .SongSelect .. => 2
  | .TuneRequest | .TimingClock | .Start | .Continue | .Stop
  | .ActiveSensing | .Reset => 1

/-- Rust `RenderError` (midi.rs line 112). -/
inductive RenderError where
  | BufferTooShort
deriving Repr, DecidableEq

/-- Rust `ParseError` (midi.rs line 119). -/
inductive ParseError where
  | BufferTooShort
  | MessageNotFound
  | PartialData
deriving Repr, DecidableEq

/-- Models `for (o, i) in buf.iter_mut().zip(src) { *o = *i; }`: overwrite a
prefix of `buf` with `src`, stopping at the shorter of the two. -/
def writePrefix : List Nat → List Nat → List Nat
  | buf, [] => buf
  | [], _ => []
  | _ :: buf, s :: src => s :: writePrefix buf src

/-- Rust `MidiMessage::chan3byte` (midi.rs line 153): length-check, then write
`[status | chan, d0, d1]` into the front of the buffer. -/
def chan3byte (buf : List Nat) (status chan d0 d1 : Nat) :
    Except RenderError Nat × List Nat :=
  if 3 ≤ buf.length then
    (Except.ok 3, writePrefix buf [status ||| chan, d0, d1])
  else
    (Except.error RenderError.BufferTooShort, buf)

/-- Rust `MidiMessage::chan2byte` (midi.rs line 173). -/
def chan2byte (buf : List Nat) (status chan d0 : Nat) :
    Except RenderError Nat × List Nat :=
  if 2 ≤ buf.length then
    (Except.ok 2, writePrefix buf [status ||| chan, d0])
  else
    (Except.error RenderError.BufferTooShort, buf)

/-- Rust `MidiMessage::chan1byte` (midi.rs line 192): `buf[0] = status`. -/
def chan1byte (buf : List Nat) (status : Nat) :
    Except RenderError Nat × List Nat :=
  if 1 ≤ buf.length then
    (Except.ok 1, writePrefix buf [status])
  else
    (Except.error RenderError.BufferTooShort, buf)

/-- Rust `MidiMessage::render` (midi.rs line 202).  The `Into<u8>` conversions of
the payload types are field reads; `Into<(u8, u8)>` of `Value14` (line 419)
yields `(self.0, self.1)`, so pitch bend and song position write `v0` (the
most significant 7 bits of the `u16` view) first. -/
def render (m : MidiMessage) (buf : List Nat) : Except RenderError Nat × List Nat :=
  match m with
  | .NoteOff c n v => chan3byte buf 0x80 c.val n.val v.val
  | .NoteOn c n v => chan3byte buf 0x90 c.val n.val v.val
  | .KeyPressure c n v => chan3byte buf 0xA0 c.val n.val v.val
  | .ControlChange c k v => chan3byte buf 0xB0 c.val k.val v.val
  | .PitchBendChange c v => chan3byte buf 0xE0 c.val v.v0 v.v1
  | .SongPositionPointer v => chan3byte buf 0xF2 0 v.v0 v.v1
  | .ProgramChange c p => chan2byte buf 0xC0 c.val p.val
  | .ChannelPressure c p => chan2byte buf 0xD0 c.val p.val
  | .QuarterFrame q => chan2byte buf 0xF1 0 q.val
  | .SongSelect s => chan2byte buf 0xF3 0 s.val
  | .TuneRequest => chan1byte buf 0xF6
  | .TimingClock => chan1byte buf 0xF8
  | .Start => chan1byte buf 0xFA
  | .Continue => chan1byte buf 0xFB
  | .Stop => chan1byte buf 0xFC
  | .ActiveSensing => chan1byte buf 0xFE
  | .Reset => chan1byte buf 0xFF

/-- Rust `MidiMessage::check_len` (midi.rs line 231).  The closure bodies in
`parse` are always `Ok(<constructed message>)`, where construction can panic
in a `From<u8>` assert; `func` is therefore the optional constructed message
and the panic (`none`) propagates. -/
def check_len (buf : List Nat) (len : Nat) (func : Option MidiMessage) :
    Option (Except ParseError MidiMessage) :=
  if len ≤ buf.length then func.map Except.ok else some (.error .BufferTooShort)

/-- The `chan` closure in `parse` (midi.rs line 244): `Channel::from(status & 0x0F)`. -/
def chanOf (status : Nat) : Option Channel :=
  Channel.fromU8 (status &&& 0x0F)

/-- Rust `MidiMessage::parse` (midi.rs line 243).  `none` models a panic: `buf[0]`
on an empty slice, or a failed `assert!` in a `From<u8>` conversion.  Match
arms appear in source order; the constant and range patterns are disjoint. -/
def parse (buf : List Nat) : Option (Except ParseError MidiMessage) :=
  match buf with
  | [] => none
  | b0 :: _ =>
    if b0 = 0xF6 then some (.ok .TuneRequest)
    else if b0 = 0xF8 then some (.ok .TimingClock)
    else if b0 = 0xFA then some (.ok .Start)
    else if b0 = 0xFB then some (.ok .Continue)
    else if b0 = 0xFC then some (.ok .Stop)
    else if b0 = 0xFE then some (.ok .ActiveSensing)
    else if b0 = 0xFF then some (.ok .Reset)
    else if 0xC0 ≤ b0 ∧ b0 ≤ 0xCF then
      check_len buf 2 (do
        let c ← chanOf b0
        let d1 ← buf.get? 1
        let p ← Program.fromU8 d1
        pure (.ProgramChange c p))
    else if 0xD0 ≤ b0 ∧ b0 ≤ 0xDF then
      check_len buf 2 (do
        let c ← chanOf b0
        let d1 ← buf.get? 1
        pure (.ChannelPressure c (Value7.fromU8 d1)))
    else if b0 = 0xF1 then
      check_len buf 2 (do
        let d1 ← buf.get? 1
        pure (.QuarterFrame (QuarterFrame.fromU8 d1)))
    else if b0 = 0xF3 then
      check_len buf 2 (do
        let d1 ← buf.get? 1
        pure (.SongSelect (Value7.fromU8 d1)))
    else if 0x80 ≤ b0 ∧ b0 ≤ 0x8F then
      check_len buf 3 (do
        let c ← chanOf b0
        let d1 ← buf.get? 1
        let d2 ← buf.get? 2
        let n ← Note.fromU8 d1
        pure (.NoteOff c n (Value7.fromU8 d2)))
    else if 0x90 ≤ b0 ∧ b0 ≤ 0x9F then
      check_len buf 3 (do
        let c ← chanOf b0
        let d1 ← buf.get? 1
        let d2 ← buf.get? 2
        let n ← Note.fromU8 d1
        pure (.NoteOn c n (Value7.fromU8 d2)))
    else if 0xA0 ≤ b0 ∧ b0 ≤ 0xAF then
      check_len buf 3 (do
        let c ← chanOf b0
        let d1 ← buf.get? 1
        let d2 ← buf.get? 2
        let n ← Note.fromU8 d1
        pure (.KeyPressure c n (Value7.fromU8 d2)))
    else if 0xB0 ≤ b0 ∧ b0 ≤ 0xBF then
      check_len buf 3 (do
        let c ← chanOf b0
        let d1 ← buf.get? 1
        let d2 ← buf.get? 2
        let k ← Control.fromU8 d1
        pure (.ControlChange c k (Value7.fromU8 d2)))
    else if 0xE0 ≤ b0 ∧ b0 ≤ 0xEF then
      check_len buf 3 (do
        let c ← chanOf b0
        let d1 ← buf.get? 1
        let d2 ← buf.get? 2
        pure (.PitchBendChange c (Value14.fromPair d1 d2)))
    else if b0 = 0xF2 then
      check_len buf 3 (do
        let d1 ← buf.get? 1
        let d2 ← buf.get? 2
        pure (.SongPositionPointer (Value14.fromPair d1 d2)))
    else some (.error .MessageNotFound)

/-- Rust `TryFrom<&[u8]> for MidiMessage` (midi.rs line 313): empty-buffer check,
then `parse`. -/
def try_from (buf : List Nat) : Option (Except ParseError MidiMessage) :=
  if buf.length = 0 then some (.error .BufferTooShort) else parse buf

/-- Representation invariant of a Rust `MidiMessage` value (midi.rs): all
fields are `u8`, and the `From<u8>` asserts bound channels by 15 and
notes/controllers/programs by 127. -/
def MidiMessage.WF : MidiMessage → Prop
  | .NoteOff c n v | .NoteOn c n v | .KeyPressure c n v =>
      c.val ≤ 15 ∧ n.val ≤ 127 ∧ v.val ≤ 255
  | .ControlChange c k v => c.val ≤ 15 ∧ k.val ≤ 127 ∧ v.val ≤ 255
  | .ProgramChange c p => c.val ≤ 15 ∧ p.val ≤ 127
  | .ChannelPressure c v => c.val ≤ 15 ∧ v.val ≤ 255
  | .PitchBendChange c v => c.val ≤ 15 ∧ v.v0 ≤ 255 ∧ v.v1 ≤ 255
  | .QuarterFrame q => q.val ≤ 255
  | .SongPositionPointer v => v.v0 ≤ 255 ∧ v.v1 ≤ 255
  | .SongSelect v => v.val ≤ 255
  | _ => True

end Codec

/-- In-range payload predicate for messages (spec section 3): channel at most
15, every 7-bit payload at most 127. -/
def MidiTypes.MidiMessage.InRange : MidiTypes.MidiMessage → Prop
  | .NoteOff c n v | .NoteOn c n v | .KeyPressure c n v =>
      c.val ≤ 15 ∧ n.val ≤ 127 ∧ v.val ≤ 127
  | .ControlChange c k v => c.val ≤ 15 ∧ k.val ≤ 127 ∧ v.val ≤ 127
  | .ProgramChange c p => c.val ≤ 15 ∧ p.val ≤ 127
  | .ChannelPressure c v => c.val ≤ 15 ∧ v.val ≤ 127
  | .PitchBendChange c v => c.val ≤ 15 ∧ v.msb ≤ 127 ∧ v.lsb ≤ 127
  | .QuarterFrame q => q.val ≤ 127
  | .SongPositionPointer v => v.msb ≤ 127 ∧ v.lsb ≤ 127
  | .SongSelect v => v.val ≤ 127
  | _ => True

/-- Reachability invariant of the stream parser state: every stored channel
is at most 15, every stored note/controller/data byte at most 127. -/
def MidiTypes.MidiParserState.WF : MidiTypes.MidiParserState → Prop
  | .Idle | .QuarterFrameRecvd | .SongPositionRecvd | .SongSelectRecvd => True
  | .NoteOnRecvd c | .NoteOffRecvd c | .KeyPressureRecvd c | .ControlChangeRecvd c
  | .ProgramChangeRecvd c | .ChannelPressureRecvd c | .PitchBendRecvd c => c.val ≤ 15
  | .NoteOnNoteRecvd c n | .NoteOffNoteRecvd c n | .KeyPressureNoteRecvd c n =>
      c.val ≤ 15 ∧ n.val ≤ 127
  | .ControlChangeControlRecvd c k => c.val ≤ 15 ∧ k.val ≤ 127
  | .PitchBendFirstByteRecvd c b => c.val ≤ 15 ∧ b ≤ 127
  | .SongPositionLsbRecvd b => b ≤ 127

/-- The set of first bytes `Codec.parse` recognises (the status-byte table of
spec section 6, in the source order of the match arms of midi.rs `parse`). -/
def Codec.knownStatus (b : Nat) : Prop :=
  b = 0xF6 ∨ b = 0xF8 ∨ b = 0xFA ∨ b = 0xFB ∨ b = 0xFC ∨ b = 0xFE ∨ b = 0xFF ∨
  (0xC0 ≤ b ∧ b ≤ 0xCF) ∨ (0xD0 ≤ b ∧ b ≤ 0xDF) ∨ b = 0xF1 ∨ b = 0xF3 ∨
  (0x80 ≤ b ∧ b ≤ 0x8F) ∨ (0x90 ≤ b ∧ b ≤ 0x9F) ∨ (0xA0 ≤ b ∧ b ≤ 0xAF) ∨
  (0xB0 ≤ b ∧ b ≤ 0xBF) ∨ (0xE0 ≤ b ∧ b ≤ 0xEF) ∨ b = 0xF2

/-- Byte count needed by a message whose status byte is `b` (meaningful on
`knownStatus` bytes): 1 for the status-only messages, 2 for
ProgramChange/ChannelPressure/QuarterFrame/SongSelect, 3 for the rest. -/
def Codec.statusLen (b : Nat) : Nat :=
  if b = 0xF6 ∨ b = 0xF8 ∨ b = 0xFA ∨ b = 0xFB ∨ b = 0xFC ∨ b = 0xFE ∨ b = 0xFF then 1
  else if (0xC0 ≤ b ∧ b ≤ 0xDF) ∨ b = 0xF1 ∨ b = 0xF3 then 2
  else 3

theorem and_nibble_eq_mod (x : Nat) : x &&& 0x0F = x % 16 := by
  have h : (0x0F : Nat) = 2 ^ 4 - 1 := by norm_num
  rw [h, Nat.and_pow_two_sub_one_eq_mod]

theorem and_seven_bits_eq_mod (x : Nat) : x &&& 0x7F = x % 128 := by
  have h : (0x7F : Nat) = 2 ^ 7 - 1 := by norm_num
  rw [h, Nat.and_pow_two_sub_one_eq_mod]

theorem and_msb_mask_shift (u : Nat) : (u &&& 0x3F80) >>> 7 = u / 128 % 128 := by
  apply Nat.eq_of_testBit_eq
  intro i
  rw [Nat.testBit_shiftRight, Nat.testBit_and]
  have h128 : (128 : Nat) = 2 ^ 7 := by norm_num
  rw [h128, ← Nat.shiftRight_eq_div_pow, Nat.testBit_mod_two_pow, Nat.testBit_shiftRight]
  by_cases hi : i < 7
  · have h2 : Nat.testBit 0x3F80 (7 + i) = true := by interval_cases i <;> decide
    simp [h2, hi]
  · have h1 : Nat.testBit 0x3F80 (7 + i) = false := by
      apply Nat.testBit_lt_two_pow
      calc (0x3F80 : Nat) < 2 ^ 14 := by norm_num
        _ ≤ 2 ^ (7 + i) := Nat.pow_le_pow_right (by norm_num) (by omega)
    simp [h1, hi]

theorem lor_channel_nibble (st c : Nat) (hc : c ≤ 15)
    (hst : st ∈ ([0x80, 0x90, 0xA0, 0xB0, 0xC0, 0xD0, 0xE0] : List Nat)) :
    st ||| c = st + c := by
  fin_cases hst <;> interval_cases c <;> rfl

theorem take1_writePrefix :
    ∀ (buf : List Nat) (a : Nat), 1 ≤ buf.length →
      (Codec.writePrefix buf [a]).take 1 = [a]
  | _ :: _, _, _ => rfl

theorem take2_writePrefix :
    ∀ (buf : List Nat) (a b : Nat), 2 ≤ buf.length →
      (Codec.writePrefix buf [a, b]).take 2 = [a, b]
  | _ :: _ :: _, _, _, _ => rfl
  | [], _, _, h | [_], _, _, h => by simp at h

theorem take3_writePrefix :
    ∀ (buf : List Nat) (a b c : Nat), 3 ≤ buf.length →
      (Codec.writePrefix buf [a, b, c]).take 3 = [a, b, c]
  | _ :: _ :: _ :: _, _, _, _, _ => rfl
  | [], _, _, _, h | [_], _, _, _, h | [_, _], _, _, _, h => by simp at h

theorem drop1_writePrefix (buf : List Nat) (a : Nat) :
    (Codec.writePrefix buf [a]).drop 1 = buf.drop 1 := by
  rcases buf with _ | ⟨x, t⟩ <;> simp [Codec.writePrefix]

theorem drop2_writePrefix (buf : List Nat) (a b : Nat) :
    (Codec.writePrefix buf [a, b]).drop 2 = buf.drop 2 := by
  rcases buf with _ | ⟨x, _ | ⟨y, t⟩⟩ <;> simp [Codec.writePrefix]

theorem drop3_writePrefix (buf : List Nat) (a b c : Nat) :
    (Codec.writePrefix buf [a, b, c]).drop 3 = buf.drop 3 := by
  rcases buf with _ | ⟨x, _ | ⟨y, _ | ⟨z, t⟩⟩⟩ <;> simp [Codec.writePrefix]

theorem channel_new_val_le (x : Nat) : (MidiTypes.Channel.new x).val ≤ 15 := by
  simp only [MidiTypes.Channel.new]
  split <;> omega

theorem note_new_val_le (x : Nat) : (MidiTypes.Note.new x).val ≤ 127 := by
  simp only [MidiTypes.Note.new]
  split <;> omega

theorem control_new_val_le (x : Nat) : (MidiTypes.Control.new x).val ≤ 127 := by
  simp only [MidiTypes.Control.new]
  split <;> omega

theorem program_new_val_le (x : Nat) : (MidiTypes.Program.new x).val ≤ 127 := by
  simp only [MidiTypes.Program.new]
  split <;> omega

theorem value7_new_val_le (x : Nat) : (MidiTypes.Value7.new x).val ≤ 127 := by
  simp only [MidiTypes.Value7.new]
  split <;> omega

theorem quarterFrame_new_val_le (x : Nat) : (MidiTypes.QuarterFrame.new x).val ≤ 127 := by
  simp only [MidiTypes.QuarterFrame.new]
  split <;> omega

theorem value14_new_msb_le (a b : Nat) : (MidiTypes.Value14.new a b).msb ≤ 127 := by
  simp only [MidiTypes.Value14.new]
  split <;> omega

theorem value14_new_lsb_le (a b : Nat) : (MidiTypes.Value14.new a b).lsb ≤ 127 := by
  simp only [MidiTypes.Value14.new]
  split <;> omega

theorem data_byte_le (b : Nat) (hb : b < 256) (h : MidiTypes.is_status_byte b = false) :
    b ≤ 127 := by
  by_contra hc
  have h8 : 128 ≤ b := by omega
  have : b &&& 0x80 = 0x80 := by
    have h2 : (0x80 : Nat) = 2 ^ 7 := by norm_num
    rw [h2, Nat.and_two_pow]
    have : b.testBit 7 = true := by
      rw [Nat.testBit_to_div_mod]
      have h27 : (2 : Nat) ^ 7 = 128 := by norm_num
      have hd : b / 2 ^ 7 = 1 := by rw [h27]; omega
      rw [hd]
      decide
    simp [this]
  simp [MidiTypes.is_status_byte, this] at h

theorem check_len_ne_partial (buf : List Nat) (len : Nat) (f : Option Codec.MidiMessage) :
    Codec.check_len buf len f ≠ some (Except.error Codec.ParseError.PartialData) := by
  unfold Codec.check_len
  split
  · cases f <;> simp
  · simp

/-- Claim C1: the spec says render writes lsb then msb for PitchBendChange and
SongPositionPointer, and that the stream parser treats the first data byte
after an 0xE0-0xEF or 0xF2 status as the lsb.  The code does the opposite:
the streaming parser stores the first data byte into the `msb` component of
`Value14` (whose `u16` view is `msb * 128 + lsb`), and the codec's render
writes the `v0` component (the one weighted by 128 in its `u16` view) first.
This theorem evaluates both at the failing input: first data byte 0x01,
second 0x02 produce the 14-bit value 130 = 1 * 128 + 2, not 257 = 2 * 128 + 1. -/
theorem pitchbend_first_data_byte_is_msb :
    (MidiTypes.parse_bytes .Idle [0xE0, 0x01, 0x02]).2 =
      [MidiTypes.MidiMessage.PitchBendChange (MidiTypes.Channel.new 0)
        ⟨0x01, 0x02⟩] ∧
    (MidiTypes.parse_bytes .Idle [0xF2, 0x01, 0x02]).2 =
      [MidiTypes.MidiMessage.SongPositionPointer ⟨0x01, 0x02⟩] ∧
    MidiTypes.Value14.toU16 ⟨0x01, 0x02⟩ = 130 ∧
    (Codec.render (Codec.MidiMessage.PitchBendChange ⟨0⟩ ⟨0x01, 0x02⟩) [0, 0, 0]).2 =
      [0xE0, 0x01, 0x02] ∧
    (Codec.render (Codec.MidiMessage.SongPositionPointer ⟨0x01, 0x02⟩) [0, 0, 0]).2 =
      [0xF2, 0x01, 0x02] ∧
    Codec.Value14.toU16 ⟨0x01, 0x02⟩ = 130 ∧
    (130 : Nat) ≠ 2 * 128 + 1 :=
  ⟨rfl, rfl, rfl, rfl, rfl, rfl, by decide⟩

/-- Claim C2: for every parser state and every byte in 0xF8..=0xFF,
`parse_byte` leaves the state unchanged and returns the corresponding
real-time message (none for the reserved bytes 0xF9/0xFD); in particular
[0xD6, 0xF8, 0x77] yields TimingClock then ChannelPressure(6, 0x77). -/
theorem realtime_bytes_transparent :
    (∀ (s : MidiTypes.MidiParserState) (b : Nat), 0xF8 ≤ b → b ≤ 0xFF →
      (MidiTypes.parse_byte s b).1 = s ∧
      (MidiTypes.parse_byte s b).2 =
        (if b = 0xF8 then some MidiTypes.MidiMessage.TimingClock
         else if b = 0xFA then some MidiTypes.MidiMessage.Start
         else if b = 0xFB then some MidiTypes.MidiMessage.Continue
         else if b = 0xFC then some MidiTypes.MidiMessage.Stop
         else if b = 0xFE then some MidiTypes.MidiMessage.ActiveSensing
         else if b = 0xFF then some MidiTypes.MidiMessage.Reset
         else none)) ∧
    (MidiTypes.parse_bytes .Idle [0xD6, 0xF8, 0x77]).2 =
      [MidiTypes.MidiMessage.TimingClock,
       MidiTypes.MidiMessage.ChannelPressure (MidiTypes.Channel.new 6)
         (MidiTypes.Value7.new 0x77)] := by
  constructor
  · intro s b h1 h2
    interval_cases b <;> exact ⟨rfl, rfl⟩
  · rfl

/-- Witness for C2 at state `Idle`, byte 0xF8. -/
theorem realtime_bytes_transparent_witness :
    (MidiTypes.parse_byte .Idle 0xF8).1 = MidiTypes.MidiParserState.Idle :=
  (realtime_bytes_transparent.1 .Idle 0xF8 (by decide) (by decide)).1

/-- Claim C4: completing a 3-byte channel-voice message returns the parser to
the awaiting-first-data-byte state for the same type and channel (running
status), and [0x82, 0x76, 0x34, 0x33, 0x65] yields exactly two NoteOff
messages on channel 2. -/
theorem running_status_three_byte :
    (∀ (c : MidiTypes.Channel) (n : MidiTypes.Note) (b : Nat),
      MidiTypes.is_status_byte b = false →
      MidiTypes.parse_byte (.NoteOffNoteRecvd c n) b =
        (.NoteOffRecvd c, some (.NoteOff c n (MidiTypes.Value7.new b))) ∧
      MidiTypes.parse_byte (.NoteOnNoteRecvd c n) b =
        (.NoteOnRecvd c, some (.NoteOn c n (MidiTypes.Value7.new b))) ∧
      MidiTypes.parse_byte (.KeyPressureNoteRecvd c n) b =
        (.KeyPressureRecvd c, some (.KeyPressure c n (MidiTypes.Value7.new b)))) ∧
    (∀ (c : MidiTypes.Channel) (k : MidiTypes.Control) (b : Nat),
      MidiTypes.is_status_byte b = false →
      MidiTypes.parse_byte (.ControlChangeControlRecvd c k) b =
        (.ControlChangeRecvd c, some (.ControlChange c k (MidiTypes.Value7.new b)))) ∧
    (∀ (c : MidiTypes.Channel) (b1 b : Nat),
      MidiTypes.is_status_byte b = false →
      MidiTypes.parse_byte (.PitchBendFirstByteRecvd c b1) b =
        (.PitchBendRecvd c, some (.PitchBendChange c (MidiTypes.Value14.new b1 b)))) ∧
    (MidiTypes.parse_bytes .Idle [0x82, 0x76, 0x34, 0x33, 0x65]).2 =
      [MidiTypes.MidiMessage.NoteOff (MidiTypes.Channel.new 2) (MidiTypes.Note.new 0x76)
         (MidiTypes.Value7.new 0x34),
       MidiTypes.MidiMessage.NoteOff (MidiTypes.Channel.new 2) (MidiTypes.Note.new 0x33)
         (MidiTypes.Value7.new 0x65)] := by
  refine ⟨?_, ?_, ?_, rfl⟩
  · intro c n b h
    refine ⟨?_, ?_, ?_⟩ <;> simp [MidiTypes.parse_byte, h]
  · intro c k b h
    simp [MidiTypes.parse_byte, h]
  · intro c b1 b h
    simp [MidiTypes.parse_byte, h]

/-- Witness for C4: a NoteOff completed by data byte 0x34 on channel 2. -/
theorem running_status_three_byte_witness :
    MidiTypes.parse_byte
        (.NoteOffNoteRecvd (MidiTypes.Channel.new 2) (MidiTypes.Note.new 0x76)) 0x34 =
      (.NoteOffRecvd (MidiTypes.Channel.new 2),
       some (.NoteOff (MidiTypes.Channel.new 2) (MidiTypes.Note.new 0x76)
         (MidiTypes.Value7.new 0x34))) :=
  (running_status_three_byte.1 (MidiTypes.Channel.new 2) (MidiTypes.Note.new 0x76) 0x34
    (by decide)).1

/-- Claim C5: a system-common status mid-message abandons the in-progress
channel-voice message: [0x92, 0x76, 0xF6, 0x34] yields only TuneRequest
(emitted on the 0xF6 byte, which resets the state to Idle, so the trailing
0x34 is dropped), and [0x92, 0x76, 0xF5, 0x34] yields nothing at all
(0xF5 resets to Idle without emitting). -/
theorem system_common_abandons :
    (MidiTypes.parse_bytes .Idle [0x92, 0x76, 0xF6, 0x34]).2 =
      [MidiTypes.MidiMessage.TuneRequest] ∧
    MidiTypes.parse_byte
        (.NoteOnNoteRecvd (MidiTypes.Channel.new 2) (MidiTypes.Note.new 0x76)) 0xF6 =
      (.Idle, some MidiTypes.MidiMessage.TuneRequest) ∧
    (MidiTypes.parse_bytes .Idle [0x92, 0x76, 0xF5, 0x34]).2 = [] ∧
    MidiTypes.parse_byte
        (.NoteOnNoteRecvd (MidiTypes.Channel.new 2) (MidiTypes.Note.new 0x76)) 0xF5 =
      (.Idle, none) :=
  ⟨rfl, rfl, rfl, rfl⟩

/-- Claim C6: for every u8 input (indeed every Nat), construction of the
bounded value primitives saturates — `Channel::new` holds min(v, 15), the
127-bounded primitives hold min(v, 127) — and conversion back to u8 returns
exactly the saturated value. -/
theorem primitives_saturate (v : Nat) :
    MidiTypes.Channel.toU8 (MidiTypes.Channel.new v) = min v 15 ∧
    MidiTypes.Value7.toU8 (MidiTypes.Value7.new v) = min v 127 ∧
    MidiTypes.Control.toU8 (MidiTypes.Control.new v) = min v 127 ∧
    MidiTypes.Program.toU8 (MidiTypes.Program.new v) = min v 127 ∧
    MidiTypes.Note.toU8 (MidiTypes.Note.new v) = min v 127 ∧
    MidiTypes.QuarterFrame.toU8 (MidiTypes.QuarterFrame.new v) = min v 127 := by
  refine ⟨?_, ?_, ?_, ?_, ?_, ?_⟩ <;>
    simp only [MidiTypes.Channel.new, MidiTypes.Channel.toU8, MidiTypes.Value7.new,
      MidiTypes.Value7.toU8, MidiTypes.Control.new, MidiTypes.Control.toU8,
      MidiTypes.Program.new, MidiTypes.Program.toU8, MidiTypes.Note.new, MidiTypes.Note.toU8,
      MidiTypes.QuarterFrame.new, MidiTypes.QuarterFrame.toU8] <;>
    split <;> omega

theorem value14_new_id (a b : Nat) (ha : a ≤ 127) (hb : b ≤ 127) :
    MidiTypes.Value14.new a b = ⟨a, b⟩ := by
  simp only [MidiTypes.Value14.new, MidiTypes.Value14.mk.injEq]
  constructor <;> split <;> omega

/-- Claim C8: converting any n in -8192..=8191 to a `Value14` and back to i16
returns exactly n; the conversion biases by +8192 and splits into two 7-bit
bytes, each at most 127. -/
theorem value14_i16_roundtrip (n : Int) (h1 : -8192 ≤ n) (h2 : n ≤ 8191) :
    MidiTypes.Value14.toI16 (MidiTypes.Value14.ofI16 n) = n ∧
    (MidiTypes.Value14.ofI16 n).msb ≤ 127 ∧ (MidiTypes.Value14.ofI16 n).lsb ≤ 127 := by
  have hclamp : min (max n (-8192)) 8191 + 8192 = n + 8192 := by omega
  have hofi : MidiTypes.Value14.ofI16 n =
      MidiTypes.Value14.new ((n + 8192).toNat / 128 % 128) ((n + 8192).toNat % 128) := by
    simp only [MidiTypes.Value14.ofI16, hclamp, and_msb_mask_shift, and_seven_bits_eq_mod]
  have hult : (n + 8192).toNat < 16384 := by omega
  have hmsb : (n + 8192).toNat / 128 % 128 ≤ 127 := by omega
  have hlsb : (n + 8192).toNat % 128 ≤ 127 := by omega
  have hnew := value14_new_id _ _ hmsb hlsb
  refine ⟨?_, ?_, ?_⟩
  · rw [hofi, hnew]
    have htu : MidiTypes.Value14.toU16
        ⟨(n + 8192).toNat / 128 % 128, (n + 8192).toNat % 128⟩ = (n + 8192).toNat := by
      simp only [MidiTypes.Value14.toU16, Nat.shiftLeft_eq]
      have h27 : (2 : Nat) ^ 7 = 128 := by norm_num
      rw [h27]
      omega
    simp only [MidiTypes.Value14.toI16, htu]
    omega
  · rw [hofi]
    exact value14_new_msb_le _ _
  · rw [hofi]
    exact value14_new_lsb_le _ _

/-- Witness for C8 at n = -3000. -/
theorem value14_i16_roundtrip_witness :
    MidiTypes.Value14.toI16 (MidiTypes.Value14.ofI16 (-3000)) = -3000 :=
  (value14_i16_roundtrip (-3000) (by norm_num) (by norm_num)).1

theorem emis_none {p : MidiTypes.MidiParserState × Option MidiTypes.MidiMessage}
    (hp : p.2 = none) : ∀ m, p.2 = some m → m.InRange := by
  intro m hm
  rw [hp] at hm
  exact Option.noConfusion hm

theorem emis_of_eq {p : MidiTypes.MidiParserState × Option MidiTypes.MidiMessage}
    {X : MidiTypes.MidiMessage} (hp : p.2 = some X) (hX : X.InRange) :
    ∀ m, p.2 = some m → m.InRange := by
  intro m hm
  rw [hp] at hm
  cases Option.some.inj hm
  exact hX

/-- One step of the stream parser preserves the state invariant, and any
message it emits carries only in-range payloads. -/
theorem parse_byte_preserves_range (s : MidiTypes.MidiParserState) (b : Nat)
    (hb : b < 256) (hs : s.WF) :
    (MidiTypes.parse_byte s b).1.WF ∧
    (∀ m, (MidiTypes.parse_byte s b).2 = some m → m.InRange) := by
  by_cases hsb : MidiTypes.is_status_byte b = true
  · have hge : 0x80 ≤ b := by
      have h1 : b &&& 0x80 = 0x80 := by simpa [MidiTypes.is_status_byte] using hsb
      have h2 : b &&& 0x80 ≤ b := Nat.and_le_left
      omega
    interval_cases b <;>
      first
      | exact ⟨True.intro, emis_none rfl⟩
      | exact ⟨Nat.le_of_ble_eq_true rfl, emis_none rfl⟩
      | exact ⟨hs, emis_none rfl⟩
      | exact ⟨hs, emis_of_eq rfl True.intro⟩
      | exact ⟨True.intro, emis_of_eq rfl True.intro⟩
  · have hsb' : MidiTypes.is_status_byte b = false := by simpa using hsb
    have h127 : b ≤ 127 := data_byte_le b hb hsb'
    rw [MidiTypes.parse_byte.eq_def]
    rw [if_neg (by simp [hsb'])]
    cases s <;>
      first
      | exact ⟨hs, emis_none rfl⟩
      | exact ⟨⟨hs, note_new_val_le b⟩, emis_none rfl⟩
      | exact ⟨⟨hs, control_new_val_le b⟩, emis_none rfl⟩
      | exact ⟨⟨hs, h127⟩, emis_none rfl⟩
      | exact ⟨h127, emis_none rfl⟩
      | exact ⟨hs.1, emis_of_eq rfl ⟨hs.1, hs.2, value7_new_val_le b⟩⟩
      | exact ⟨hs.1, emis_of_eq rfl
          ⟨hs.1, value14_new_msb_le _ _, value14_new_lsb_le _ _⟩⟩
      | exact ⟨True.intro, emis_of_eq rfl
          ⟨value14_new_msb_le _ _, value14_new_lsb_le _ _⟩⟩
      | exact ⟨hs, emis_of_eq rfl ⟨hs, program_new_val_le b⟩⟩
      | exact ⟨hs, emis_of_eq rfl ⟨hs, value7_new_val_le b⟩⟩
      | exact ⟨True.intro, emis_of_eq rfl (quarterFrame_new_val_le b)⟩

/-- Running the parser over a byte list from a well-formed state keeps the
state well-formed and emits only in-range messages. -/
theorem parse_bytes_preserves_range :
    ∀ (bytes : List Nat) (s : MidiTypes.MidiParserState),
      (∀ b ∈ bytes, b < 256) → s.WF →
      (MidiTypes.parse_bytes s bytes).1.WF ∧
      ∀ m ∈ (MidiTypes.parse_bytes s bytes).2, m.InRange
  | [], s, _, hs => ⟨hs, by simp [MidiTypes.parse_bytes]⟩
  | b :: bs, s, hb, hs => by
    have hb0 : b < 256 := hb b (by simp)
    have hstep := parse_byte_preserves_range s b hb0 hs
    have hrest := parse_bytes_preserves_range bs (MidiTypes.parse_byte s b).1
      (fun x hx => hb x (by simp [hx])) hstep.1
    refine ⟨by simpa [MidiTypes.parse_bytes] using hrest.1, ?_⟩
    intro m hm
    simp only [MidiTypes.parse_bytes] at hm
    rcases hopt : (MidiTypes.parse_byte s b).2 with _ | m0
    · rw [hopt] at hm
      exact hrest.2 m hm
    · rw [hopt] at hm
      rcases List.mem_cons.mp hm with h | h
      · exact h ▸ hstep.2 m0 hopt
      · exact hrest.2 m h

/-- Claim C9: every message the stream parser emits from u8 input carries
only in-range payloads — channel at most 15, every 7-bit value at most 127 —
and no clamping has to trigger: a byte dispatched as data (high bit clear)
is at most 127, on which every saturating constructor is the identity;
a channel is the low nibble of the status byte, at most 15. -/
theorem parser_emissions_in_range :
    (∀ (bytes : List Nat), (∀ b ∈ bytes, b < 256) →
      ∀ m ∈ (MidiTypes.parse_bytes .Idle bytes).2, m.InRange) ∧
    (∀ b : Nat, b < 256 → MidiTypes.is_status_byte b = false →
      b ≤ 127 ∧ MidiTypes.Value7.new b = ⟨b⟩ ∧ MidiTypes.Note.new b = ⟨b⟩ ∧
        MidiTypes.Control.new b = ⟨b⟩ ∧ MidiTypes.Program.new b = ⟨b⟩ ∧
        MidiTypes.QuarterFrame.new b = ⟨b⟩) ∧
    (∀ b : Nat, (MidiTypes.split_message_and_channel b).2.val ≤ 15) := by
  refine ⟨?_, ?_, ?_⟩
  · intro bytes hb
    exact (parse_bytes_preserves_range bytes .Idle hb trivial).2
  · intro b hb hsb
    have h127 : b ≤ 127 := data_byte_le b hb hsb
    have hng : ¬ (b > 127) := by omega
    exact ⟨h127, by simp [MidiTypes.Value7.new, hng], by simp [MidiTypes.Note.new, hng],
      by simp [MidiTypes.Control.new, hng], by simp [MidiTypes.Program.new, hng],
      by simp [MidiTypes.QuarterFrame.new, hng]⟩
  · intro b
    exact channel_new_val_le _

/-- Witness for C9: the NoteOff emitted by [0x82, 0x76, 0x34] is in range. -/
theorem parser_emissions_in_range_witness :
    MidiTypes.MidiMessage.InRange
      (MidiTypes.MidiMessage.NoteOff ⟨2⟩ ⟨0x76⟩ ⟨0x34⟩) :=
  parser_emissions_in_range.1 [0x82, 0x76, 0x34] (by decide)
    (MidiTypes.MidiMessage.NoteOff ⟨2⟩ ⟨0x76⟩ ⟨0x34⟩) (by decide)

theorem tail_writePrefix (buf : List Nat) (a : Nat) :
    (Codec.writePrefix buf [a]).tail = buf.tail := by
  rcases buf with _ | ⟨x, t⟩ <;> simp [Codec.writePrefix]

/-- Claim C10: render leaves every buffer byte at index m.len() and beyond
unchanged, and when it fails with BufferTooShort (the length check precedes
any write) it modifies no byte at all. -/
theorem render_frame_condition (m : Codec.MidiMessage) (buf : List Nat) :
    List.drop m.len (Codec.render m buf).2 = List.drop m.len buf ∧
    ((Codec.render m buf).1 = Except.error Codec.RenderError.BufferTooShort →
      (Codec.render m buf).2 = buf) := by
  cases m <;>
    simp only [Codec.render, Codec.MidiMessage.len, Codec.chan3byte, Codec.chan2byte,
      Codec.chan1byte] <;>
    split_ifs <;>
    simp_all [drop3_writePrefix, drop2_writePrefix, drop1_writePrefix, tail_writePrefix]

/-- Witness for C10: a failing render on an empty buffer leaves it empty. -/
theorem render_frame_condition_witness :
    (Codec.render Codec.MidiMessage.TuneRequest ([] : List Nat)).2 = [] :=
  (render_frame_condition Codec.MidiMessage.TuneRequest []).2 rfl

theorem statusLen_one (b : Nat)
    (h : b = 0xF6 ∨ b = 0xF8 ∨ b = 0xFA ∨ b = 0xFB ∨ b = 0xFC ∨ b = 0xFE ∨ b = 0xFF) :
    Codec.statusLen b = 1 := by
  unfold Codec.statusLen
  rw [if_pos h]

theorem statusLen_two (b : Nat)
    (h : (0xC0 ≤ b ∧ b ≤ 0xDF) ∨ b = 0xF1 ∨ b = 0xF3) :
    Codec.statusLen b = 2 := by
  unfold Codec.statusLen
  rw [if_neg (by omega), if_pos h]

theorem statusLen_three (b : Nat)
    (h : (0x80 ≤ b ∧ b ≤ 0xBF) ∨ (0xE0 ≤ b ∧ b ≤ 0xEF) ∨ b = 0xF2) :
    Codec.statusLen b = 3 := by
  unfold Codec.statusLen
  rw [if_neg (by omega), if_neg (by omega)]

theorem ite_ne_target {c : Prop} [Decidable c]
    {a b t : Option (Except Codec.ParseError Codec.MidiMessage)}
    (ha : a ≠ t) (hb : b ≠ t) : (if c then a else b) ≠ t := by
  split <;> assumption

theorem map_ok_ne_partial (f : Option Codec.MidiMessage) :
    f.map Except.ok ≠ some (Except.error Codec.ParseError.PartialData) := by
  cases f <;> simp

/-- Claim C7: the buffer codec parse fails with BufferTooShort on an empty
slice, with MessageNotFound when the first byte matches no known status,
with BufferTooShort when a matched multi-byte status has too few bytes, and
never returns PartialData. -/
theorem parse_error_classification :
    Codec.try_from [] = some (Except.error Codec.ParseError.BufferTooShort) ∧
    (∀ (b0 : Nat) (rest : List Nat), ¬ Codec.knownStatus b0 →
      Codec.try_from (b0 :: rest) = some (Except.error Codec.ParseError.MessageNotFound)) ∧
    (∀ (b0 : Nat) (rest : List Nat), Codec.knownStatus b0 →
      (b0 :: rest).length < Codec.statusLen b0 →
      Codec.try_from (b0 :: rest) = some (Except.error Codec.ParseError.BufferTooShort)) ∧
    (∀ buf : List Nat, Codec.try_from buf ≠ some (Except.error Codec.ParseError.PartialData)) := by
  refine ⟨rfl, ?_, ?_, ?_⟩
  · intro b0 rest h
    simp only [Codec.knownStatus, not_or] at h
    obtain ⟨h1, h2, h3, h4, h5, h6, h7, h8, h9, h10, h11, h12, h13, h14, h15, h16, h17⟩ := h
    simp [Codec.try_from, Codec.parse, h1, h2, h3, h4, h5, h6, h7, h8, h9, h10, h11,
      h12, h13, h14, h15, h16, h17]
  · intro b0 rest h hlen
    rcases h with h|h|h|h|h|h|h|h|h|h|h|h|h|h|h|h|h <;>
      first
      | (rw [statusLen_one b0 (by omega), List.length_cons] at hlen
         exact absurd hlen (by omega))
      | (rw [statusLen_two b0 (by omega), List.length_cons] at hlen
         rcases rest with _ | ⟨x, xs⟩
         · first
           | (subst h; rfl)
           | (obtain ⟨ha, hb2⟩ := h
              interval_cases b0 <;> rfl)
         · rw [List.length_cons] at hlen
           exact absurd hlen (by omega))
      | (rw [statusLen_three b0 (by omega), List.length_cons] at hlen
         rcases rest with _ | ⟨x, _ | ⟨y, ys⟩⟩
         · first
           | (subst h; rfl)
           | (obtain ⟨ha, hb2⟩ := h
              interval_cases b0 <;> rfl)
         · first
           | (subst h; rfl)
           | (obtain ⟨ha, hb2⟩ := h
              interval_cases b0 <;> rfl)
         · rw [List.length_cons, List.length_cons] at hlen
           exact absurd hlen (by omega))
  · intro buf
    unfold Codec.try_from
    split_ifs with h
    · simp
    · rcases buf with _ | ⟨b0, rest⟩
      · simp at h
      · simp only [Codec.parse]
        repeat' apply ite_ne_target
        all_goals
          first
          | exact check_len_ne_partial _ _ _
          | exact map_ok_ne_partial _
          | simp

/-- Witness for C7: byte 0x00 matches no status and yields MessageNotFound. -/
theorem parse_error_classification_witness :
    Codec.try_from [0x00] = some (Except.error Codec.ParseError.MessageNotFound) :=
  parse_error_classification.2.1 0x00 []
    (by unfold Codec.knownStatus; omega)

/-- Claim C3: for every well-formed message and sufficiently long buffer,
render returns Ok(m.len()) and parsing the first m.len() rendered bytes
returns Ok(m) — the render/parse round trip, with render's byte count equal
to len() for every variant.  Well-formedness is the representation invariant
of the Rust value: u8 fields, channels at most 15, and the assert-guarded
note/controller/program fields at most 127. -/
theorem render_parse_roundtrip (m : Codec.MidiMessage) (buf : List Nat)
    (hwf : m.WF) (hlen : m.len ≤ buf.length) :
    (Codec.render m buf).1 = Except.ok m.len ∧
    Codec.try_from (((Codec.render m buf).2).take m.len) = some (Except.ok m) := by
  cases m with
  | NoteOff c n v =>
    obtain ⟨c⟩ := c
    obtain ⟨n⟩ := n
    obtain ⟨v⟩ := v
    have hwf' : c ≤ 15 ∧ n ≤ 127 ∧ v ≤ 255 := hwf
    obtain ⟨hc, hn, hv⟩ := hwf'
    simp only [Codec.MidiMessage.len] at hlen ⊢
    have hlor : (0x80 : Nat) ||| c = 0x80 + c := lor_channel_nibble 0x80 c hc (by decide)
    refine ⟨by simp [Codec.render, Codec.chan3byte, hlen], ?_⟩
    have h2 : (Codec.render (Codec.MidiMessage.NoteOff ⟨c⟩ ⟨n⟩ ⟨v⟩) buf).2 =
        Codec.writePrefix buf [0x80 + c, n, v] := by
      simp [Codec.render, Codec.chan3byte, hlen, hlor]
    rw [h2, take3_writePrefix buf _ _ _ hlen]
    interval_cases c <;>
      simp [Codec.try_from, Codec.parse, Codec.check_len, Codec.chanOf,
        Codec.Channel.fromU8, Codec.Note.fromU8, Codec.Value7.fromU8,
        and_nibble_eq_mod, hn]
  | NoteOn c n v =>
    obtain ⟨c⟩ := c
    obtain ⟨n⟩ := n
    obtain ⟨v⟩ := v
    have hwf' : c ≤ 15 ∧ n ≤ 127 ∧ v ≤ 255 := hwf
    obtain ⟨hc, hn, hv⟩ := hwf'
    simp only [Codec.MidiMessage.len] at hlen ⊢
    have hlor : (0x90 : Nat) ||| c = 0x90 + c := lor_channel_nibble 0x90 c hc (by decide)
    refine ⟨by simp [Codec.render, Codec.chan3byte, hlen], ?_⟩
    have h2 : (Codec.render (Codec.MidiMessage.NoteOn ⟨c⟩ ⟨n⟩ ⟨v⟩) buf).2 =
        Codec.writePrefix buf [0x90 + c, n, v] := by
      simp [Codec.render, Codec.chan3byte, hlen, hlor]
    rw [h2, take3_writePrefix buf _ _ _ hlen]
    interval_cases c <;>
      simp [Codec.try_from, Codec.parse, Codec.check_len, Codec.chanOf,
        Codec.Channel.fromU8, Codec.Note.fromU8, Codec.Value7.fromU8,
        and_nibble_eq_mod, hn]
  | KeyPressure c n v =>
    obtain ⟨c⟩ := c
    obtain ⟨n⟩ := n
    obtain ⟨v⟩ := v
    have hwf' : c ≤ 15 ∧ n ≤ 127 ∧ v ≤ 255 := hwf
    obtain ⟨hc, hn, hv⟩ := hwf'
    simp only [Codec.MidiMessage.len] at hlen ⊢
    have hlor : (0xA0 : Nat) ||| c = 0xA0 + c := lor_channel_nibble 0xA0 c hc (by decide)
    refine ⟨by simp [Codec.render, Codec.chan3byte, hlen], ?_⟩
    have h2 : (Codec.render (Codec.MidiMessage.KeyPressure ⟨c⟩ ⟨n⟩ ⟨v⟩) buf).2 =
        Codec.writePrefix buf [0xA0 + c, n, v] := by
      simp [Codec.render, Codec.chan3byte, hlen, hlor]
    rw [h2, take3_writePrefix buf _ _ _ hlen]
    interval_cases c <;>
      simp [Codec.try_from, Codec.parse, Codec.check_len, Codec.chanOf,
        Codec.Channel.fromU8, Codec.Note.fromU8, Codec.Value7.fromU8,
        and_nibble_eq_mod, hn]
  | ControlChange c k v =>
    obtain ⟨c⟩ := c
    obtain ⟨k⟩ := k
    obtain ⟨v⟩ := v
    have hwf' : c ≤ 15 ∧ k ≤ 127 ∧ v ≤ 255 := hwf
    obtain ⟨hc, hk, hv⟩ := hwf'
    simp only [Codec.MidiMessage.len] at hlen ⊢
    have hlor : (0xB0 : Nat) ||| c = 0xB0 + c := lor_channel_nibble 0xB0 c hc (by decide)
    refine ⟨by simp [Codec.render, Codec.chan3byte, hlen], ?_⟩
    have h2 : (Codec.render (Codec.MidiMessage.ControlChange ⟨c⟩ ⟨k⟩ ⟨v⟩) buf).2 =
        Codec.writePrefix buf [0xB0 + c, k, v] := by
      simp [Codec.render, Codec.chan3byte, hlen, hlor]
    rw [h2, take3_writePrefix buf _ _ _ hlen]
    interval_cases c <;>
      simp [Codec.try_from, Codec.parse, Codec.check_len, Codec.chanOf,
        Codec.Channel.fromU8, Codec.Control.fromU8, Codec.Value7.fromU8,
        and_nibble_eq_mod, hk]
  | PitchBendChange c v =>
    obtain ⟨c⟩ := c
    obtain ⟨v0, v1⟩ := v
    have hwf' : c ≤ 15 ∧ v0 ≤ 255 ∧ v1 ≤ 255 := hwf
    obtain ⟨hc, hv0, hv1⟩ := hwf'
    simp only [Codec.MidiMessage.len] at hlen ⊢
    have hlor : (0xE0 : Nat) ||| c = 0xE0 + c := lor_channel_nibble 0xE0 c hc (by decide)
    refine ⟨by simp [Codec.render, Codec.chan3byte, hlen], ?_⟩
    have h2 : (Codec.render (Codec.MidiMessage.PitchBendChange ⟨c⟩ ⟨v0, v1⟩) buf).2 =
        Codec.writePrefix buf [0xE0 + c, v0, v1] := by
      simp [Codec.render, Codec.chan3byte, hlen, hlor]
    rw [h2, take3_writePrefix buf _ _ _ hlen]
    interval_cases c <;>
      simp [Codec.try_from, Codec.parse, Codec.check_len, Codec.chanOf,
        Codec.Channel.fromU8, Codec.Value14.fromPair, and_nibble_eq_mod]
  | SongPositionPointer v =>
    obtain ⟨v0, v1⟩ := v
    have hwf' : v0 ≤ 255 ∧ v1 ≤ 255 := hwf
    simp only [Codec.MidiMessage.len] at hlen ⊢
    refine ⟨by simp [Codec.render, Codec.chan3byte, hlen], ?_⟩
    have h2 : (Codec.render (Codec.MidiMessage.SongPositionPointer ⟨v0, v1⟩) buf).2 =
        Codec.writePrefix buf [0xF2, v0, v1] := by
      simp [Codec.render, Codec.chan3byte, hlen, Nat.or_zero]
    rw [h2, take3_writePrefix buf _ _ _ hlen]
    simp [Codec.try_from, Codec.parse, Codec.check_len, Codec.Value14.fromPair]
  | ProgramChange c p =>
    obtain ⟨c⟩ := c
    obtain ⟨p⟩ := p
    have hwf' : c ≤ 15 ∧ p ≤ 127 := hwf
    obtain ⟨hc, hp⟩ := hwf'
    simp only [Codec.MidiMessage.len] at hlen ⊢
    have hlor : (0xC0 : Nat) ||| c = 0xC0 + c := lor_channel_nibble 0xC0 c hc (by decide)
    refine ⟨by simp [Codec.render, Codec.chan2byte, hlen], ?_⟩
    have h2 : (Codec.render (Codec.MidiMessage.ProgramChange ⟨c⟩ ⟨p⟩) buf).2 =
        Codec.writePrefix buf [0xC0 + c, p] := by
      simp [Codec.render, Codec.chan2byte, hlen, hlor]
    rw [h2, take2_writePrefix buf _ _ hlen]
    interval_cases c <;>
      simp [Codec.try_from, Codec.parse, Codec.check_len, Codec.chanOf,
        Codec.Channel.fromU8, Codec.Program.fromU8, and_nibble_eq_mod, hp]
  | ChannelPressure c v =>
    obtain ⟨c⟩ := c
    obtain ⟨v⟩ := v
    have hwf' : c ≤ 15 ∧ v ≤ 255 := hwf
    obtain ⟨hc, hv⟩ := hwf'
    simp only [Codec.MidiMessage.len] at hlen ⊢
    have hlor : (0xD0 : Nat) ||| c = 0xD0 + c := lor_channel_nibble 0xD0 c hc (by decide)
    refine ⟨by simp [Codec.render, Codec.chan2byte, hlen], ?_⟩
    have h2 : (Codec.render (Codec.MidiMessage.ChannelPressure ⟨c⟩ ⟨v⟩) buf).2 =
        Codec.writePrefix buf [0xD0 + c, v] := by
      simp [Codec.render, Codec.chan2byte, hlen, hlor]
    rw [h2, take2_writePrefix buf _ _ hlen]
    interval_cases c <;>
      simp [Codec.try_from, Codec.parse, Codec.check_len, Codec.chanOf,
        Codec.Channel.fromU8, Codec.Value7.fromU8, and_nibble_eq_mod]
  | QuarterFrame q =>
    obtain ⟨q⟩ := q
    simp only [Codec.MidiMessage.len] at hlen ⊢
    refine ⟨by simp [Codec.render, Codec.chan2byte, hlen], ?_⟩
    have h2 : (Codec.render (Codec.MidiMessage.QuarterFrame ⟨q⟩) buf).2 =
        Codec.writePrefix buf [0xF1, q] := by
      simp [Codec.render, Codec.chan2byte, hlen, Nat.or_zero]
    rw [h2, take2_writePrefix buf _ _ hlen]
    simp [Codec.try_from, Codec.parse, Codec.check_len, Codec.QuarterFrame.fromU8]
  | SongSelect v =>
    obtain ⟨v⟩ := v
    simp only [Codec.MidiMessage.len] at hlen ⊢
    refine ⟨by simp [Codec.render, Codec.chan2byte, hlen], ?_⟩
    have h2 : (Codec.render (Codec.MidiMessage.SongSelect ⟨v⟩) buf).2 =
        Codec.writePrefix buf [0xF3, v] := by
      simp [Codec.render, Codec.chan2byte, hlen, Nat.or_zero]
    rw [h2, take2_writePrefix buf _ _ hlen]
    simp [Codec.try_from, Codec.parse, Codec.check_len, Codec.Value7.fromU8]
  | TuneRequest =>
    simp only [Codec.MidiMessage.len] at hlen ⊢
    refine ⟨by simp [Codec.render, Codec.chan1byte, hlen], ?_⟩
    have h2 : (Codec.render Codec.MidiMessage.TuneRequest buf).2 =
        Codec.writePrefix buf [0xF6] := by
      simp [Codec.render, Codec.chan1byte, hlen]
    rw [h2, take1_writePrefix buf _ hlen]
    rfl
  | TimingClock =>
    simp only [Codec.MidiMessage.len] at hlen ⊢
    refine ⟨by simp [Codec.render, Codec.chan1byte, hlen], ?_⟩
    have h2 : (Codec.render Codec.MidiMessage.TimingClock buf).2 =
        Codec.writePrefix buf [0xF8] := by
      simp [Codec.render, Codec.chan1byte, hlen]
    rw [h2, take1_writePrefix buf _ hlen]
    rfl
  | Start =>
    simp only [Codec.MidiMessage.len] at hlen ⊢
    refine ⟨by simp [Codec.render, Codec.chan1byte, hlen], ?_⟩
    have h2 : (Codec.render Codec.MidiMessage.Start buf).2 =
        Codec.writePrefix buf [0xFA] := by
      simp [Codec.render, Codec.chan1byte, hlen]
    rw [h2, take1_writePrefix buf _ hlen]
    rfl
  | Continue =>
    simp only [Codec.MidiMessage.len] at hlen ⊢
    refine ⟨by simp [Codec.render, Codec.chan1byte, hlen], ?_⟩
    have h2 : (Codec.render Codec.MidiMessage.Continue buf).2 =
        Codec.writePrefix buf [0xFB] := by
      simp [Codec.render, Codec.chan1byte, hlen]
    rw [h2, take1_writePrefix buf _ hlen]
    rfl
  | Stop =>
    simp only [Codec.MidiMessage.len] at hlen ⊢
    refine ⟨by simp [Codec.render, Codec.chan1byte, hlen], ?_⟩
    have h2 : (Codec.render Codec.MidiMessage.Stop buf).2 =
        Codec.writePrefix buf [0xFC] := by
      simp [Codec.render, Codec.chan1byte, hlen]
    rw [h2, take1_writePrefix buf _ hlen]
    rfl
  | ActiveSensing =>
    simp only [Codec.MidiMessage.len] at hlen ⊢
    refine ⟨by simp [Codec.render, Codec.chan1byte, hlen], ?_⟩
    have h2 : (Codec.render Codec.MidiMessage.ActiveSensing buf).2 =
        Codec.writePrefix buf [0xFE] := by
      simp [Codec.render, Codec.chan1byte, hlen]
    rw [h2, take1_writePrefix buf _ hlen]
    rfl
  | Reset =>
    simp only [Codec.MidiMessage.len] at hlen ⊢
    refine ⟨by simp [Codec.render, Codec.chan1byte, hlen], ?_⟩
    have h2 : (Codec.render Codec.MidiMessage.Reset buf).2 =
        Codec.writePrefix buf [0xFF] := by
      simp [Codec.render, Codec.chan1byte, hlen]
    rw [h2, take1_writePrefix buf _ hlen]
    rfl

/-- Witness for C3: round trip of NoteOn(channel 3, note 0x78, velocity 0x78)
through a 3-byte buffer. -/
theorem render_parse_roundtrip_witness :
    (Codec.render (Codec.MidiMessage.NoteOn ⟨3⟩ ⟨0x78⟩ ⟨0x78⟩) [0, 0, 0]).1 =
      Except.ok (Codec.MidiMessage.NoteOn ⟨3⟩ ⟨0x78⟩ ⟨0x78⟩).len ∧
    Codec.try_from
        (((Codec.render (Codec.MidiMessage.NoteOn ⟨3⟩ ⟨0x78⟩ ⟨0x78⟩) [0, 0, 0]).2).take
          (Codec.MidiMessage.NoteOn ⟨3⟩ ⟨0x78⟩ ⟨0x78⟩).len) =
      some (Except.ok (Codec.MidiMessage.NoteOn ⟨3⟩ ⟨0x78⟩ ⟨0x78⟩)) :=
  render_parse_roundtrip (Codec.MidiMessage.NoteOn ⟨3⟩ ⟨0x78⟩ ⟨0x78⟩) [0, 0, 0]
    ⟨by norm_num, by norm_num, by norm_num⟩ (by norm_num [Codec.MidiMessage.len])
